import Mathlib

/-!
Shallow embedding of the libcurl `Easy` handle adapter (`src/Easy.cc`) of the
node-libcurl style binding.  Host-runtime (V8/JavaScript) dynamic values are
modelled by the inductives `JSPrim` / `JSItem` / `JSValue`; the engine
(libcurl) is modelled through explicit parameters carrying the result codes
its calls would return and the state of its option slots.  Each trampoline and
each `setOpt` / `getInfo` branch relevant to the verified properties is
translated directly from the C++ source.
-/

namespace NodeLibcurl

/-- Primitive host values (no nesting), as discriminated by the V8 type tests
the adapter performs (`IsNull`, `IsString`, `IsInt32`, `IsFunction`, ...).
`int32 n` is a number for which `IsInt32()` holds; `numberOther` stands for a
number for which it does not (e.g. a non-integral double). -/
inductive JSPrim where
  | null
  | undefined
  | boolean (b : Bool)
  | int32 (n : Int)
  | numberOther
  | str (s : String)
  | func (id : Nat)
deriving DecidableEq, Repr

/-- An element of a host array: a primitive or a plain object with
primitive-valued properties (property list in insertion order, as
`Nan::GetPropertyNames` reports it). -/
inductive JSItem where
  | prim (p : JSPrim)
  | object (props : List (String × JSPrim))
deriving DecidableEq, Repr

/-- Host values as the adapter inspects them: primitives, arrays, and plain
objects.  Deeper nesting never reaches the embedded branches. -/
inductive JSValue where
  | prim (p : JSPrim)
  | array (elems : List JSItem)
  | object (props : List (String × JSPrim))
deriving DecidableEq, Repr

def JSValue.null : JSValue := JSValue.prim JSPrim.null

def JSValue.undefined : JSValue := JSValue.prim JSPrim.undefined

def JSValue.str (s : String) : JSValue := JSValue.prim (JSPrim.str s)

def JSValue.int32 (n : Int) : JSValue := JSValue.prim (JSPrim.int32 n)

def JSValue.func (id : Nat) : JSValue := JSValue.prim (JSPrim.func id)

/-- `value->IsNull()` -/
def JSValue.isNull : JSValue → Bool
  | JSValue.prim JSPrim.null => true
  | _ => false

/-- `value->IsUndefined()` -/
def JSValue.isUndefined : JSValue → Bool
  | JSValue.prim JSPrim.undefined => true
  | _ => false

/-- `value->IsString()` -/
def JSValue.isString : JSValue → Bool
  | JSValue.prim (JSPrim.str _) => true
  | _ => false

/-- `value->IsInt32()` -/
def JSValue.isInt32 : JSValue → Bool
  | JSValue.prim (JSPrim.int32 _) => true
  | _ => false

/-- `value->IsFunction()` -/
def JSValue.isFunction : JSValue → Bool
  | JSValue.prim (JSPrim.func _) => true
  | _ => false

/-- `value->IsArray()` -/
def JSValue.isArray : JSValue → Bool
  | JSValue.array _ => true
  | _ => false

/-- `value->IsFalse()` -/
def JSValue.isFalse : JSValue → Bool
  | JSValue.prim (JSPrim.boolean false) => true
  | _ => false

/-- `v->IsString()` on a primitive. -/
def JSPrim.isString : JSPrim → Bool
  | JSPrim.str _ => true
  | _ => false

/-- `Nan::To<int32_t>(v).FromJust()` on a value already known to satisfy
`IsInt32` (the only situation the source uses it in after that check). -/
def JSValue.toInt32 : JSValue → Int
  | JSValue.prim (JSPrim.int32 n) => n
  | _ => 0

/-- `Nan::To<uint32_t>(v).FromJust()`: JavaScript ToUint32 conversion,
modelled on the shapes that occur (an `Int32` reduces modulo `2^32`; other
shapes are irrelevant to the verified properties and map to 0). -/
def JSValue.toUint32 : JSValue → Nat
  | JSValue.prim (JSPrim.int32 n) => (n % 4294967296).toNat
  | _ => 0

/-- `Nan::Utf8String(v)` on a primitive: JavaScript string conversion. -/
def JSPrim.utf8 : JSPrim → String
  | JSPrim.null => "null"
  | JSPrim.undefined => "undefined"
  | JSPrim.boolean b => if b then "true" else "false"
  | JSPrim.int32 n => toString n
  | JSPrim.numberOther => "number"
  | JSPrim.str s => s
  | JSPrim.func _ => "function"

/-- `Nan::Utf8String(v)` on an array element. -/
def JSItem.utf8 : JSItem → String
  | JSItem.prim p => p.utf8
  | JSItem.object _ => "[object Object]"

/-- `Nan::Utf8String(v)` on a general value. -/
def JSValue.utf8 : JSValue → String
  | JSValue.prim p => p.utf8
  | JSValue.array elems => String.intercalate "," (elems.map JSItem.utf8)
  | JSValue.object _ => "[object Object]"

/-- Outcome of synchronously invoking a host callable (`Nan::Call`): either a
returned value, or a pending exception (in which case the surrounding
`Nan::TryCatch` has caught and the returned `MaybeLocal` is empty).  The
exception is modelled as the string V8 would report for it. -/
inductive CallOutcome where
  | ok (v : JSValue)
  | threw (e : String)
deriving DecidableEq, Repr

/-- The curl option identifiers (numeric codes from `curl.h`) used by the
embedded branches. -/
def CURLOPT_WRITEFUNCTION : Nat := 20011

def CURLOPT_CHUNK_BGN_FUNCTION : Nat := 20198

def CURLOPT_CHUNK_END_FUNCTION : Nat := 20199

def CURLOPT_PROGRESSFUNCTION : Nat := 20056

def CURLOPT_XFERINFOFUNCTION : Nat := 20219

def CURLOPT_DEBUGFUNCTION : Nat := 20094

def CURLOPT_TRAILERFUNCTION : Nat := 20283

/-- Mutable per-handle adapter state touched by the embedded code paths.
`callbacks` is the Callback Registry, modelled as the list of engine option
identifiers that currently have a registered host callable (`CallbacksMap`
keys; the callables themselves are irrelevant because every host invocation
outcome is passed in explicitly).  `callbackError` is the deferred-error slot,
holding the caught exception's report string. -/
structure Handle where
  isOpen : Bool := true
  isInsideMultiHandle : Bool := false
  isCbProgressAlreadyAborted : Bool := false
  callbackError : Option String := none
  callbacks : List Nat := []
deriving DecidableEq, Repr

/-- Result of running one callback trampoline: the updated handle state, the
integer returned to the engine, whether the registered host callable was
invoked, and the error rethrown to the host (`tryCatch.ReThrow()` /
`Nan::ThrowError`), if any. -/
structure CbRun where
  handle : Handle
  ret : Int
  invokedHost : Bool
  rethrown : Option String
deriving DecidableEq, Repr

/-- Shared error-routing step of every trampoline (`Easy.cc`, the
`tryCatch.HasCaught()` / type-error blocks): when inside a multi handle the
error is parked in `callbackError`; otherwise it is rethrown to the host. -/
def routeCallbackError (obj : Handle) (e : String) : Handle × Option String :=
  if obj.isInsideMultiHandle then ({ obj with callbackError := some e }, none)
  else (obj, some e)

/-- `Easy::CbProgress` (`src/Easy.cc:483`).  `host` is the outcome the
registered PROGRESS callable produces if it is invoked. -/
def Easy.CbProgress (obj : Handle) (host : CallOutcome) : CbRun :=
  -- int32_t returnValue = 1; if (obj->isCbProgressAlreadyAborted) return returnValue;
  if obj.isCbProgressAlreadyAborted then
    { handle := obj, ret := 1, invokedHost := false, rethrown := none }
  else
    match host with
    | CallOutcome.threw e =>
        let (obj1, rethrown) := routeCallbackError obj e
        { handle := obj1, ret := 1, invokedHost := true, rethrown := rethrown }
    | CallOutcome.ok v =>
        if v.isInt32 then
          let ret := v.toInt32
          let obj1 := if ret ≠ 0 then { obj with isCbProgressAlreadyAborted := true } else obj
          { handle := obj1, ret := ret, invokedHost := true, rethrown := none }
        else
          let te := "TypeError: Return value from the PROGRESS callback must be an integer."
          let (obj1, rethrown) := routeCallbackError obj te
          -- returnValue is still 1 here, so the abort latch is set before returning
          let obj2 := { obj1 with isCbProgressAlreadyAborted := true }
          { handle := obj2, ret := 1, invokedHost := true, rethrown := rethrown }

/-- `Easy::CbXferinfo` (`src/Easy.cc:617`); identical control flow to
`Easy.CbProgress` up to the type-error message. -/
def Easy.CbXferinfo (obj : Handle) (host : CallOutcome) : CbRun :=
  if obj.isCbProgressAlreadyAborted then
    { handle := obj, ret := 1, invokedHost := false, rethrown := none }
  else
    match host with
    | CallOutcome.threw e =>
        let (obj1, rethrown) := routeCallbackError obj e
        { handle := obj1, ret := 1, invokedHost := true, rethrown := rethrown }
    | CallOutcome.ok v =>
        if v.isInt32 then
          let ret := v.toInt32
          let obj1 := if ret ≠ 0 then { obj with isCbProgressAlreadyAborted := true } else obj
          { handle := obj1, ret := ret, invokedHost := true, rethrown := none }
        else
          let te := "TypeError: Return value from the XFERINFO callback must be an integer."
          let (obj1, rethrown) := routeCallbackError obj te
          let obj2 := { obj1 with isCbProgressAlreadyAborted := true }
          { handle := obj2, ret := 1, invokedHost := true, rethrown := rethrown }

/-- `Easy::CbChunkBgn` (`src/Easy.cc:307`): fail sentinel is
`CURL_CHUNK_BGN_FUNC_FAIL = 1`. -/
def Easy.CbChunkBgn (obj : Handle) (host : CallOutcome) : CbRun :=
  match host with
  | CallOutcome.threw e =>
      let (obj1, rethrown) := routeCallbackError obj e
      { handle := obj1, ret := 1, invokedHost := true, rethrown := rethrown }
  | CallOutcome.ok v =>
      if v.isInt32 then
        { handle := obj, ret := v.toInt32, invokedHost := true, rethrown := none }
      else
        let te := "TypeError: Return value from the CHUNK_BGN callback must be an integer."
        let (obj1, rethrown) := routeCallbackError obj te
        { handle := obj1, ret := 1, invokedHost := true, rethrown := rethrown }

/-- `Easy::CbChunkEnd` (`src/Easy.cc:351`): fail sentinel is
`CURL_CHUNK_END_FUNC_FAIL = 1`; same control flow as `CbChunkBgn`. -/
def Easy.CbChunkEnd (obj : Handle) (host : CallOutcome) : CbRun :=
  match host with
  | CallOutcome.threw e =>
      let (obj1, rethrown) := routeCallbackError obj e
      { handle := obj1, ret := 1, invokedHost := true, rethrown := rethrown }
  | CallOutcome.ok v =>
      if v.isInt32 then
        { handle := obj, ret := v.toInt32, invokedHost := true, rethrown := none }
      else
        let te := "TypeError: Return value from the CHUNK_END callback must be an integer."
        let (obj1, rethrown) := routeCallbackError obj te
        { handle := obj1, ret := 1, invokedHost := true, rethrown := rethrown }

/-- Result of the trailer trampoline: additionally records the header strings
appended to the engine-owned outgoing trailer list. -/
structure TrailerRun where
  handle : Handle
  ret : Int
  rethrown : Option String
  appended : List String
deriving DecidableEq, Repr

/-- The row loop of `Easy::CbTrailer` (`src/Easy.cc:594`): appends each string
to the outgoing list; a non-string element routes a type error and aborts,
keeping the nodes appended so far. -/
def trailerAppendLoop (obj : Handle) (rows : List JSItem) (acc : List String) :
    TrailerRun :=
  match rows with
  | [] => { handle := obj, ret := 0, rethrown := none, appended := acc }
  | r :: rest =>
      match r with
      | JSItem.prim (JSPrim.str s) => trailerAppendLoop obj rest (acc ++ [s])
      | _ =>
          let te :=
            "TypeError: Return value from the Trailer callback must be an array of strings or false."
          let (obj1, rethrown) := routeCallbackError obj te
          { handle := obj1, ret := 1, rethrown := rethrown, appended := acc }

/-- `Easy::CbTrailer` (`src/Easy.cc:542`): abort sentinel is
`CURL_TRAILERFUNC_ABORT = 1`, success is `CURL_TRAILERFUNC_OK = 0`. -/
def Easy.CbTrailer (obj : Handle) (host : CallOutcome) : TrailerRun :=
  match host with
  | CallOutcome.threw e =>
      let (obj1, rethrown) := routeCallbackError obj e
      { handle := obj1, ret := 1, rethrown := rethrown, appended := [] }
  | CallOutcome.ok v =>
      if !v.isArray && !v.isFalse then
        let te :=
          "TypeError: Return value from the Trailer callback must be an array of strings or false."
        let (obj1, rethrown) := routeCallbackError obj te
        { handle := obj1, ret := 1, rethrown := rethrown, appended := [] }
      else if v.isFalse then
        { handle := obj, ret := 1, rethrown := none, appended := [] }
      else
        match v with
        | JSValue.array rows => trailerAppendLoop obj rows []
        | _ => { handle := obj, ret := 1, rethrown := none, appended := [] }

/-- A handle on which the one-shot progress abort latch is already set. -/
def abortedHandle : Handle :=
  { isOpen := true, isInsideMultiHandle := false, isCbProgressAlreadyAborted := true,
    callbackError := none, callbacks := [CURLOPT_PROGRESSFUNCTION] }

/-- A handle currently owned by the multi-handle scheduler. -/
def multiOwnedHandle : Handle :=
  { isOpen := true, isInsideMultiHandle := true, isCbProgressAlreadyAborted := false,
    callbackError := none, callbacks := [CURLOPT_CHUNK_BGN_FUNCTION, CURLOPT_TRAILERFUNCTION] }

/- ### `setOpt`: string-valued options (`src/Easy.cc:949`) -/

/-- Observable effect of the string-option branch of `Easy::SetOpt`:
`engineCalls` lists the `curl_easy_setopt` string-pointer calls made, in
order (`none` is a NULL pointer); `retCode` is the status returned to the
host (absent when the branch threw before returning a status); `toFreeStr`
is the Retained Allocation Store's string list after the call. -/
structure SetOptStringRun where
  threw : Option String
  engineCalls : List (Option String)
  retCode : Option Int
  toFreeStr : List String
deriving DecidableEq, Repr

/-- String-option branch of `Easy::SetOpt` (`src/Easy.cc:949`).  `engineRet`
is the code the engine returns for the (last) option-set call.  Note the
source rejects every non-string value, including `null`, before the
`isNull` test: the `if (isNull)` block below it is unreachable. -/
def Easy.setOptString (value : JSValue) (optionIsPostFields : Bool) (engineRet : Int)
    (toFreeStr : List String) : SetOptStringRun :=
  if !value.isString then
    { threw := some "TypeError: Option value must be a string.", engineCalls := [],
      retCode := none, toFreeStr := toFreeStr }
  else
    let isNull := value.isNull
    let nullCalls : List (Option String) := if isNull then [none] else []
    let valueStr := value.utf8
    if optionIsPostFields then
      { threw := none, engineCalls := nullCalls ++ [some valueStr], retCode := some engineRet,
        toFreeStr := if engineRet = 0 then toFreeStr ++ [valueStr] else toFreeStr }
    else
      { threw := none, engineCalls := nullCalls ++ [some valueStr], retCode := some engineRet,
        toFreeStr := toFreeStr }

/- ### `setOpt`: list-valued (slist) options (`src/Easy.cc:922`) -/

/-- Observable effect of the slist branch of `Easy::SetOpt`: `engineArg` is
the pointer handed to the engine's option-set call (`some none` = NULL,
`some (some l)` = a linked list with the nodes of `l` in order), `toFreeSlist`
the Retained Allocation Store's slist list after the call. -/
structure SetOptSlistRun where
  threw : Option String
  engineArg : Option (Option (List String))
  retCode : Option Int
  toFreeSlist : List (List String)
deriving DecidableEq, Repr

/-- Non-HTTPPOST linked-list branch of `Easy::SetOpt` (`src/Easy.cc:922`):
each array element is appended via `curl_slist_append` (so the engine list
carries the elements in array order), and the list is retained only when the
engine accepted it. -/
def Easy.setOptSlist (value : JSValue) (engineRet : Int)
    (toFreeSlist : List (List String)) : SetOptSlistRun :=
  if value.isNull then
    { threw := none, engineArg := some none, retCode := some engineRet,
      toFreeSlist := toFreeSlist }
  else if !value.isArray then
    { threw := some "TypeError: Option value must be an Array.", engineArg := none,
      retCode := none, toFreeSlist := toFreeSlist }
  else
    match value with
    | JSValue.array elems =>
        let slist := elems.map JSItem.utf8
        { threw := none, engineArg := some (some slist), retCode := some engineRet,
          toFreeSlist := if engineRet = 0 then toFreeSlist ++ [slist] else toFreeSlist }
    | _ =>
        { threw := none, engineArg := none, retCode := none, toFreeSlist := toFreeSlist }

/- ### `setOpt`: structured multipart post (`src/Easy.cc:773`) -/

/-- The five recognised multipart descriptor keys (`CurlHttpPost::FILE`,
`TYPE`, `CONTENTS`, `NAME`, `FILENAME`). -/
inductive HttpPostProp where
  | file
  | contentType
  | contents
  | name
  | filename
deriving DecidableEq, Repr

/-- `std::transform(optionName.begin(), optionName.end(), optionName.begin(),
::toupper)`: ASCII upper-casing of a key, character by character. -/
def asciiToUpper (s : String) : String :=
  String.mk (s.data.map Char.toUpper)

/-- Modelled from the spec: the `curlOptionHttpPost` name table lives in
`Curl.cc`, which is not part of the given sources; per the spec the
recognised descriptor keys are `file`, `type`, `contents`, `name` and
`filename` (matched after upper-casing, as `Easy::SetOpt` does). -/
def lookupHttpPostProp (upperName : String) : Option HttpPostProp :=
  if upperName = "FILE" then some HttpPostProp.file
  else if upperName = "TYPE" then some HttpPostProp.contentType
  else if upperName = "CONTENTS" then some HttpPostProp.contents
  else if upperName = "NAME" then some HttpPostProp.name
  else if upperName = "FILENAME" then some HttpPostProp.filename
  else none

/-- The `hasFile` / `hasContentType` / `hasContent` / `hasName` /
`hasNewFileName` flags of the descriptor-scanning loop. -/
structure PostFlags where
  hasFile : Bool := false
  hasContentType : Bool := false
  hasContent : Bool := false
  hasName : Bool := false
  hasNewFileName : Bool := false
deriving DecidableEq, Repr

/-- One `switch (httpPostId)` step of the scanning loop. -/
def PostFlags.set (fl : PostFlags) : HttpPostProp → PostFlags
  | HttpPostProp.file => { fl with hasFile := true }
  | HttpPostProp.contentType => { fl with hasContentType := true }
  | HttpPostProp.contents => { fl with hasContent := true }
  | HttpPostProp.name => { fl with hasName := true }
  | HttpPostProp.filename => { fl with hasNewFileName := true }

/-- The property-scanning loop of the HTTPPOST branch (`src/Easy.cc:806`):
walks the descriptor's property list, rejecting unknown keys and non-string
values, and accumulating the presence flags. -/
def scanPostProps : List (String × JSPrim) → PostFlags → Except String PostFlags
  | [], fl => Except.ok fl
  | (k, v) :: rest, fl =>
      let optionName := asciiToUpper k
      match lookupHttpPostProp optionName with
      | none =>
          Except.error ("Invalid property given: \"" ++ optionName ++
            "\". Valid properties are file, type, contents, name and filename.")
      | some p =>
          if !v.isString then
            Except.error ("Value for property \"" ++ optionName ++ "\" must be a string.")
          else
            scanPostProps rest (fl.set p)

/-- One entry of the structured multipart body handed to `curl_formadd`. -/
inductive FormEntry where
  | filePart (name file : String) (contentType : Option String) (filename : Option String)
  | contentsPart (name contents : String)
deriving DecidableEq, Repr

/-- The field name recorded in a form entry (used in formadd error text). -/
def FormEntry.fieldName : FormEntry → String
  | FormEntry.filePart n _ _ _ => n
  | FormEntry.contentsPart n _ => n

/-- `Nan::Utf8String(Nan::Get(postData, key))`: property fetch (exact key)
followed by string conversion (a missing property yields `undefined`). -/
def getPropUtf8 (props : List (String × JSPrim)) (key : String) : String :=
  ((props.lookup key).getD JSPrim.undefined).utf8

/-- Validation and conversion of one multipart field descriptor
(`src/Easy.cc:786`): scans the properties, requires `name`, then builds a
file part when `file` is present (with the `type`/`filename` refinements
nested exactly as in the source) and otherwise a contents part when
`contents` is present. -/
def processPostRow (row : JSItem) : Except String FormEntry :=
  match row with
  | JSItem.object props =>
      match scanPostProps props {} with
      | Except.error e => Except.error e
      | Except.ok fl =>
          if !fl.hasName then Except.error "Missing field \"name\"."
          else
            let fieldName := getPropUtf8 props "name"
            if fl.hasFile then
              let file := getPropUtf8 props "file"
              if fl.hasContentType then
                let contentType := getPropUtf8 props "type"
                if fl.hasNewFileName then
                  Except.ok (FormEntry.filePart fieldName file (some contentType)
                    (some (getPropUtf8 props "filename")))
                else
                  Except.ok (FormEntry.filePart fieldName file (some contentType) none)
              else
                Except.ok (FormEntry.filePart fieldName file none none)
            else if fl.hasContent then
              Except.ok (FormEntry.contentsPart fieldName (getPropUtf8 props "contents"))
            else
              Except.error "Missing field \"contents\"."
  | JSItem.prim _ => Except.error "HTTPPOST option value should be an Array of Objects."

/-- The row loop of the HTTPPOST branch: processes each descriptor, calling
`curl_formadd` (modelled by the `formAdd` result oracle) after each
successful conversion, short-circuiting on the first error. -/
def buildPostRows (formAdd : FormEntry → Int) :
    List JSItem → List FormEntry → Except String (List FormEntry)
  | [], acc => Except.ok acc
  | r :: rest, acc =>
      match processPostRow r with
      | Except.error e => Except.error e
      | Except.ok entry =>
          if formAdd entry ≠ 0 then
            Except.error ("Error while adding field \"" ++ entry.fieldName ++
              "\" to post data.")
          else
            buildPostRows formAdd rest (acc ++ [entry])

/-- Observable effect of the HTTPPOST branch: `engineArg` is the multipart
body handed to the engine's option-set call, if the branch got that far. -/
structure SetOptHttpPostRun where
  threw : Option String
  engineArg : Option (List FormEntry)
  retCode : Option Int
  toFreePost : List (List FormEntry)
deriving DecidableEq, Repr

/-- HTTPPOST branch of `Easy::SetOpt` (`src/Easy.cc:773`): validates every
descriptor (throwing before the engine's option-set call on any violation),
then installs the body and retains it only when the engine accepted it. -/
def Easy.setOptHttpPost (value : JSValue) (formAdd : FormEntry → Int) (engineRet : Int)
    (toFreePost : List (List FormEntry)) : SetOptHttpPostRun :=
  if !value.isArray then
    { threw := some "TypeError: HTTPPOST option value should be an Array of Objects.",
      engineArg := none, retCode := none, toFreePost := toFreePost }
  else
    match value with
    | JSValue.array rows =>
        match buildPostRows formAdd rows [] with
        | Except.error e =>
            { threw := some e, engineArg := none, retCode := none, toFreePost := toFreePost }
        | Except.ok entries =>
            { threw := none, engineArg := some entries, retCode := some engineRet,
              toFreePost := if engineRet = 0 then toFreePost ++ [entries] else toFreePost }
    | _ =>
        { threw := none, engineArg := none, retCode := none, toFreePost := toFreePost }

/-- Spec-side well-formedness of one multipart descriptor, written after the
spec's own words (every key recognised with a string value, a `name` key
present, and a `file` or `contents` key present); used to characterise which
descriptors the source accepts. -/
def rowWellFormed (props : List (String × JSPrim)) : Bool :=
  props.all (fun kv => (lookupHttpPostProp (asciiToUpper kv.1)).isSome && kv.2.isString) &&
  props.any (fun kv => decide (lookupHttpPostProp (asciiToUpper kv.1) = some HttpPostProp.name)) &&
  props.any (fun kv => decide (lookupHttpPostProp (asciiToUpper kv.1) = some HttpPostProp.file) ||
    decide (lookupHttpPostProp (asciiToUpper kv.1) = some HttpPostProp.contents))

/- ### `setOpt`: callback-valued options (`src/Easy.cc:1012`) -/

/-- Engine-side state for the PROGRESS callback slot pair: whether the
`CURLOPT_PROGRESSFUNCTION` pointer and the `CURLOPT_PROGRESSDATA` pointer
are installed. -/
structure ProgressEngine where
  progressFn : Bool
  progressData : Bool
deriving DecidableEq, Repr

/-- Model of `curl_easy_setopt` on a function-pointer option: the engine
returns `code` and the slot takes the new value only when it accepts
(`code = 0`). -/
def engineSetFnSlot (slot : Bool) (installed : Bool) (code : Int) : Bool :=
  if code = 0 then installed else slot

/-- Result of the callback-option branch of `Easy::SetOpt`. -/
structure SetOptFunctionRun where
  threw : Option String
  callbacks : List Nat
  engine : ProgressEngine
  retCode : Option Int
deriving DecidableEq, Repr

/-- `CURLOPT_PROGRESSFUNCTION` case of the callback branch of `Easy::SetOpt`
(`src/Easy.cc:1091`); the DEBUG / FNMATCH / TRAILER / XFERINFO cases have the
same shape.  `engCode` is the code the engine returns for the
function-pointer option-set call (the data-pointer call's result is
discarded by the source, and setting a data pointer always succeeds). -/
def Easy.setOptProgressFunction (obj : Handle) (eng : ProgressEngine) (value : JSValue)
    (engCode : Int) : SetOptFunctionRun :=
  if !value.isFunction && !value.isNull then
    { threw := some "TypeError: Option value must be a null or a function.",
      callbacks := obj.callbacks, engine := eng, retCode := none }
  else if value.isNull then
    let callbacks1 := obj.callbacks.filter (fun c => c ≠ CURLOPT_PROGRESSFUNCTION)
    let eng1 := { eng with progressData := false }
    let eng2 := { eng1 with progressFn := engineSetFnSlot eng1.progressFn false engCode }
    { threw := none, callbacks := callbacks1, engine := eng2, retCode := some engCode }
  else
    let callbacks1 :=
      if CURLOPT_PROGRESSFUNCTION ∈ obj.callbacks then obj.callbacks
      else obj.callbacks ++ [CURLOPT_PROGRESSFUNCTION]
    let eng1 := { eng with progressData := true }
    let eng2 := { eng1 with progressFn := engineSetFnSlot eng1.progressFn true engCode }
    { threw := none, callbacks := callbacks1, engine := eng2, retCode := some engCode }

/-- Engine-side state for the chunk callback slots: the two function
pointers and the single shared `CURLOPT_CHUNK_DATA` user-data pointer. -/
structure ChunkEngine where
  chunkData : Bool
  chunkBgnFn : Bool
  chunkEndFn : Bool
deriving DecidableEq, Repr

/-- Result of the chunk-callback cases of `Easy::SetOpt`. -/
structure SetOptChunkRun where
  threw : Option String
  callbacks : List Nat
  engine : ChunkEngine
  retCode : Option Int
deriving DecidableEq, Repr

/-- `CURLOPT_CHUNK_BGN_FUNCTION` case of `Easy::SetOpt` (`src/Easy.cc:1021`):
on `null`, the shared `CHUNK_DATA` slot is cleared only when the END
callback is not registered. -/
def Easy.setOptChunkBgnFunction (obj : Handle) (eng : ChunkEngine) (value : JSValue)
    (engCode : Int) : SetOptChunkRun :=
  if !value.isFunction && !value.isNull then
    { threw := some "TypeError: Option value must be a null or a function.",
      callbacks := obj.callbacks, engine := eng, retCode := none }
  else if value.isNull then
    let eng1 :=
      if CURLOPT_CHUNK_END_FUNCTION ∈ obj.callbacks then eng
      else { eng with chunkData := false }
    let callbacks1 := obj.callbacks.filter (fun c => c ≠ CURLOPT_CHUNK_BGN_FUNCTION)
    let eng2 := { eng1 with chunkBgnFn := engineSetFnSlot eng1.chunkBgnFn false engCode }
    { threw := none, callbacks := callbacks1, engine := eng2, retCode := some engCode }
  else
    let callbacks1 :=
      if CURLOPT_CHUNK_BGN_FUNCTION ∈ obj.callbacks then obj.callbacks
      else obj.callbacks ++ [CURLOPT_CHUNK_BGN_FUNCTION]
    let eng1 := { eng with chunkData := true }
    let eng2 := { eng1 with chunkBgnFn := engineSetFnSlot eng1.chunkBgnFn true engCode }
    { threw := none, callbacks := callbacks1, engine := eng2, retCode := some engCode }

/-- `CURLOPT_CHUNK_END_FUNCTION` case of `Easy::SetOpt` (`src/Easy.cc:1041`),
symmetric to the BGN case. -/
def Easy.setOptChunkEndFunction (obj : Handle) (eng : ChunkEngine) (value : JSValue)
    (engCode : Int) : SetOptChunkRun :=
  if !value.isFunction && !value.isNull then
    { threw := some "TypeError: Option value must be a null or a function.",
      callbacks := obj.callbacks, engine := eng, retCode := none }
  else if value.isNull then
    let eng1 :=
      if CURLOPT_CHUNK_BGN_FUNCTION ∈ obj.callbacks then eng
      else { eng with chunkData := false }
    let callbacks1 := obj.callbacks.filter (fun c => c ≠ CURLOPT_CHUNK_END_FUNCTION)
    let eng2 := { eng1 with chunkEndFn := engineSetFnSlot eng1.chunkEndFn false engCode }
    { threw := none, callbacks := callbacks1, engine := eng2, retCode := some engCode }
  else
    let callbacks1 :=
      if CURLOPT_CHUNK_END_FUNCTION ∈ obj.callbacks then obj.callbacks
      else obj.callbacks ++ [CURLOPT_CHUNK_END_FUNCTION]
    let eng1 := { eng with chunkData := true }
    let eng2 := { eng1 with chunkEndFn := engineSetFnSlot eng1.chunkEndFn true engCode }
    { threw := none, callbacks := callbacks1, engine := eng2, retCode := some engCode }

/- ### `getInfo` (`src/Easy.cc:1169`, `src/Easy.cc:1196`) -/

/-- Decimal rendering of a natural number, the model of `std::to_string`
applied to a (non-negative) status code. -/
def decimalReprAux (n : Nat) : List Char :=
  if h : n = 0 then []
  else decimalReprAux (n / 10) ++ [Char.ofNat (48 + n % 10)]
termination_by n
decreasing_by exact Nat.div_lt_self (Nat.pos_of_ne_zero h) (by decide)

/-- `std::to_string` on a natural number. -/
def decimalRepr (n : Nat) : String :=
  if n = 0 then "0" else String.mk (decimalReprAux n)

/-- The digit-keeping erase/remove step of `Easy::GetInfo`'s catch block
(`src/Easy.cc:1312`): drop every non-digit character, keeping order. -/
def extractDigits (s : String) : List Char :=
  s.data.filter Char.isDigit

/-- `std::stoi` on an all-digit numeral (the only shape it receives in the
catch block): the base-10 value of the digit list. -/
def digitsToNat (l : List Char) : Nat :=
  l.foldl (fun a c => a * 10 + (c.toNat - 48)) 0

/-- The catch block of `Easy::GetInfo` (`src/Easy.cc:1306`): recover a status
code from the digits of the caught exception's report, defaulting to the
literal "43" (`CURLE_BAD_FUNCTION_ARGUMENT`) when no digit is present. -/
def getInfoCaughtCode (msg : String) : Nat :=
  let errCode := extractDigits msg
  digitsToNat (if errCode.length > 0 then errCode else "43".data)

/-- `tryCatch.Message()->Get()` for an error thrown by `Nan::ThrowError`:
V8 reports "Uncaught Error: " followed by the thrown text. -/
def v8UncaughtMessage (thrown : String) : String :=
  "Uncaught Error: " ++ thrown

/-- `Easy::GetInfoTmpl<char*, v8::String>` (`src/Easy.cc:1169`): on an engine
failure the status code is thrown (as text); on success a NULL `char*`
produces `Nan::EmptyString()` and any other pointer the string it points to.
The native string is `none` for a NULL pointer and `some s` otherwise. -/
def Easy.GetInfoTmplString (engineCode : Nat) (engineStr : Option String) :
    Except String JSValue :=
  if engineCode ≠ 0 then Except.error (decimalRepr engineCode)
  else
    match engineStr with
    | none => Except.ok (JSValue.str "")
    | some s => Except.ok (JSValue.str s)

/-- The `{ code, data }` pair `Easy::GetInfo` returns.  `propagated` records
an exception left pending for the host caller; `GetInfo` never rethrows, so
it is `none` on every path. -/
structure GetInfoRet where
  code : Nat
  data : JSValue
  propagated : Option String
deriving DecidableEq, Repr

/-- String branch of `Easy::GetInfo` (`src/Easy.cc:1226`) together with its
catch block: a caught internal exception degrades to a recovered status code
with `undefined` data, and is not rethrown. -/
def Easy.GetInfoString (engineCode : Nat) (engineStr : Option String) : GetInfoRet :=
  match Easy.GetInfoTmplString engineCode engineStr with
  | Except.ok v => { code := 0, data := v, propagated := none }
  | Except.error thrown =>
      { code := getInfoCaughtCode (v8UncaughtMessage thrown), data := JSValue.undefined,
        propagated := none }

/- ### `Easy::OnData` (`src/Easy.cc:208`) -/

/-- Result of the data-received trampoline: the byte count returned to the
engine and which host callable was invoked (`some true`: the registered
WRITEFUNCTION callback, `some false`: the handle's `onData` property,
`none`: neither). -/
structure OnDataRun where
  ret : Nat
  invoked : Option Bool
deriving DecidableEq, Repr

/-- `Easy::OnData` (`src/Easy.cc:208`): with no registered WRITEFUNCTION
callback and no `onData` property the full `size * nmemb` is accepted
without calling into the host; otherwise the WRITEFUNCTION callback takes
priority over `onData`.  `writeOutcome` / `onDataOutcome` are the outcomes
the respective callables produce if invoked; an empty (throwing) outcome
yields 0. -/
def Easy.OnData (obj : Handle) (onDataProp : JSValue) (size nmemb : Nat)
    (writeOutcome onDataOutcome : CallOutcome) : OnDataRun :=
  let n := size * nmemb
  let hasWriteCallback := CURLOPT_WRITEFUNCTION ∈ obj.callbacks
  if !hasWriteCallback && onDataProp.isUndefined then
    { ret := n, invoked := none }
  else
    let retVal := if hasWriteCallback then writeOutcome else onDataOutcome
    match retVal with
    | CallOutcome.threw _ => { ret := 0, invoked := some hasWriteCallback }
    | CallOutcome.ok v => { ret := v.toUint32, invoked := some hasWriteCallback }

/- ### Concrete fixtures used by witnesses and counterexamples -/

/-- A freshly opened handle with an empty Callback Registry. -/
def freshHandle : Handle :=
  { isOpen := true, isInsideMultiHandle := false, isCbProgressAlreadyAborted := false,
    callbackError := none, callbacks := [] }

/-- A PROGRESS engine slot pair with nothing installed. -/
def emptyProgressEngine : ProgressEngine :=
  { progressFn := false, progressData := false }

/-- A handle with both chunk callbacks registered. -/
def chunkHandle : Handle :=
  { isOpen := true, isInsideMultiHandle := false, isCbProgressAlreadyAborted := false,
    callbackError := none,
    callbacks := [CURLOPT_CHUNK_BGN_FUNCTION, CURLOPT_CHUNK_END_FUNCTION] }

/-- Chunk engine slots with everything installed. -/
def chunkEngineBoth : ChunkEngine :=
  { chunkData := true, chunkBgnFn := true, chunkEndFn := true }

/-- A multipart descriptor carrying `name`, `file` and `contents` at once. -/
def bothFileAndContentsRow : JSItem :=
  JSItem.object [("name", JSPrim.str "f"), ("file", JSPrim.str "/tmp/x"),
    ("contents", JSPrim.str "v")]

/- ### Theorems -/

/-- C2: for every trampoline in which the host callable raises: with
`isInsideMultiHandle` set, the error is stored in the deferred-error slot
(`callbackError`) and the failure sentinel is returned without rethrowing;
with it clear, the error is rethrown to the host and the failure sentinel is
still returned.  Shown for the two cited trampolines, `CbChunkBgn` (fail
sentinel `CURL_CHUNK_BGN_FUNC_FAIL = 1`) and `CbTrailer` (fail sentinel
`CURL_TRAILERFUNC_ABORT = 1`). -/
theorem callback_error_routing (obj : Handle) (e : String) :
    (obj.isInsideMultiHandle = true →
      Easy.CbChunkBgn obj (CallOutcome.threw e) =
        { handle := { obj with callbackError := some e }, ret := 1, invokedHost := true,
          rethrown := none } ∧
      Easy.CbTrailer obj (CallOutcome.threw e) =
        { handle := { obj with callbackError := some e }, ret := 1, rethrown := none,
          appended := [] }) ∧
    (obj.isInsideMultiHandle = false →
      Easy.CbChunkBgn obj (CallOutcome.threw e) =
        { handle := obj, ret := 1, invokedHost := true, rethrown := some e } ∧
      Easy.CbTrailer obj (CallOutcome.threw e) =
        { handle := obj, ret := 1, rethrown := some e, appended := [] }) := by
  constructor <;> intro h <;>
    simp [Easy.CbChunkBgn, Easy.CbTrailer, routeCallbackError, h]

/-- C2 witness: the deferred-error routing evaluated on a scheduler-owned
handle. -/
theorem callback_error_routing_witness :
    Easy.CbChunkBgn multiOwnedHandle (CallOutcome.threw "boom") =
      { handle := { multiOwnedHandle with callbackError := some "boom" }, ret := 1,
        invokedHost := true, rethrown := none } ∧
    Easy.CbTrailer multiOwnedHandle (CallOutcome.threw "boom") =
      { handle := { multiOwnedHandle with callbackError := some "boom" }, ret := 1,
        rethrown := none, appended := [] } :=
  (callback_error_routing multiOwnedHandle "boom").1 rfl

/-- C3 counterexample: on a successful engine info call that yields a NULL
native string pointer, `getInfo` returns the empty string, not host
`null`. -/
theorem getinfo_null_string_not_host_null :
    Easy.GetInfoString 0 none = { code := 0, data := JSValue.str "", propagated := none } ∧
    JSValue.str "" ≠ JSValue.null := by
  constructor
  · rfl
  · decide

/-- C3 amended: on a successful engine info call, a NULL (or empty) native
string pointer converts to the empty host string (`Nan::EmptyString()`), and
a non-NULL pointer converts to the string it points to. -/
theorem getinfo_string_conversion (s : String) :
    Easy.GetInfoString 0 none = { code := 0, data := JSValue.str "", propagated := none } ∧
    Easy.GetInfoString 0 (some "") =
      { code := 0, data := JSValue.str "", propagated := none } ∧
    Easy.GetInfoString 0 (some s) =
      { code := 0, data := JSValue.str s, propagated := none } := by
  exact ⟨rfl, rfl, rfl⟩

/-- C4: the string-option branch rejects `null` with a host-visible type
error before any engine call, because the `IsString` test precedes (and
subsumes) the `isNull` test — the null-clearing path of the source is
unreachable, contradicting the documented contract that a string option
accepts a string or null. -/
theorem setopt_string_null_rejected :
    Easy.setOptString JSValue.null false 0 [] =
      { threw := some "TypeError: Option value must be a string.", engineCalls := [],
        retCode := none, toFreeStr := [] } ∧
    Easy.setOptString JSValue.null true 7 ["kept"] =
      { threw := some "TypeError: Option value must be a string.", engineCalls := [],
        retCode := none, toFreeStr := ["kept"] } := by
  exact ⟨rfl, rfl⟩

/-- C5: setting a list-valued option with an ordered sequence of strings
hands the engine a linked list with exactly those nodes in order, and the
list is appended to the Retained Allocation Store's slist set if and only if
the engine's option-set call returned success. -/
theorem setopt_slist_order_and_retention (ss : List String) (engineRet : Int)
    (toFree : List (List String)) :
    (Easy.setOptSlist (JSValue.array (ss.map (fun s => JSItem.prim (JSPrim.str s))))
        engineRet toFree).threw = none ∧
    (Easy.setOptSlist (JSValue.array (ss.map (fun s => JSItem.prim (JSPrim.str s))))
        engineRet toFree).engineArg = some (some ss) ∧
    ((Easy.setOptSlist (JSValue.array (ss.map (fun s => JSItem.prim (JSPrim.str s))))
        engineRet toFree).toFreeSlist = toFree ++ [ss] ↔ engineRet = 0) ∧
    (engineRet ≠ 0 →
      (Easy.setOptSlist (JSValue.array (ss.map (fun s => JSItem.prim (JSPrim.str s))))
        engineRet toFree).toFreeSlist = toFree) := by
  have hmap : (ss.map (fun s => JSItem.prim (JSPrim.str s))).map JSItem.utf8 = ss := by
    induction ss with
    | nil => rfl
    | cons x xs ih => simp only [List.map_cons, JSItem.utf8, JSPrim.utf8, ih]
  refine ⟨by simp [Easy.setOptSlist, JSValue.isNull, JSValue.isArray], ?_, ?_, ?_⟩
  · simp [Easy.setOptSlist, JSValue.isNull, JSValue.isArray, hmap]
  · by_cases h : engineRet = 0 <;>
      simp [Easy.setOptSlist, JSValue.isNull, JSValue.isArray, hmap, h,
        List.self_eq_append_right]
  · intro h
    simp [Easy.setOptSlist, JSValue.isNull, JSValue.isArray, hmap, h]

/-- C5 witness: a two-element string list installed with engine success is
passed in order and retained. -/
theorem setopt_slist_order_and_retention_witness :
    (Easy.setOptSlist
        (JSValue.array (["a", "b"].map (fun s => JSItem.prim (JSPrim.str s))))
        0 []).engineArg = some (some ["a", "b"]) ∧
    (Easy.setOptSlist
        (JSValue.array (["a", "b"].map (fun s => JSItem.prim (JSPrim.str s))))
        0 []).toFreeSlist = [] ++ [["a", "b"]] :=
  ⟨(setopt_slist_order_and_retention ["a", "b"] 0 []).2.1,
   ((setopt_slist_order_and_retention ["a", "b"] 0 []).2.2.1).mpr rfl⟩

/-- C10: with no WRITEFUNCTION callback registered and no `onData` property,
the data trampoline accepts all `size * nmemb` bytes without invoking any
host callable; with both present, the registered WRITEFUNCTION callback is
the one invoked. -/
theorem ondata_default_and_priority (obj : Handle) (onDataProp : JSValue)
    (size nmemb : Nat) (w o : CallOutcome) :
    (CURLOPT_WRITEFUNCTION ∉ obj.callbacks → onDataProp.isUndefined = true →
      Easy.OnData obj onDataProp size nmemb w o = { ret := size * nmemb, invoked := none }) ∧
    (CURLOPT_WRITEFUNCTION ∈ obj.callbacks → onDataProp.isUndefined = false →
      (Easy.OnData obj onDataProp size nmemb w o).invoked = some true) := by
  constructor
  · intro h1 h2
    simp [Easy.OnData, h1, h2]
  · intro h1 h2
    cases w with
    | ok v => simp [Easy.OnData, h1, h2]
    | threw e => simp [Easy.OnData, h1, h2]

/-- C10 witness: evaluated with an empty registry and no `onData` property,
and with a registered WRITEFUNCTION callback. -/
theorem ondata_default_and_priority_witness :
    Easy.OnData freshHandle JSValue.undefined 3 5
        (CallOutcome.ok (JSValue.int32 1)) (CallOutcome.ok (JSValue.int32 2)) =
      { ret := 15, invoked := none } ∧
    (Easy.OnData { freshHandle with callbacks := [CURLOPT_WRITEFUNCTION] }
        (JSValue.func 3) 3 5
        (CallOutcome.ok (JSValue.int32 1)) (CallOutcome.ok (JSValue.int32 2))).invoked =
      some true :=
  ⟨(ondata_default_and_priority freshHandle JSValue.undefined 3 5 _ _).1
      (by decide) (by decide),
   (ondata_default_and_priority { freshHandle with callbacks := [CURLOPT_WRITEFUNCTION] }
      (JSValue.func 3) 3 5 _ _).2 (by decide) (by decide)⟩

/-- C1 counterexample: with the abort latch set, the progress trampoline
short-circuits without invoking the host, but it returns 1 — the abort
value — not the "continue" sentinel 0 that the claim states. -/
theorem progress_short_circuit_not_continue_sentinel :
    abortedHandle.isCbProgressAlreadyAborted = true ∧
    (Easy.CbProgress abortedHandle (CallOutcome.ok (JSValue.int32 0))).invokedHost = false ∧
    (Easy.CbProgress abortedHandle (CallOutcome.ok (JSValue.int32 0))).ret = 1 ∧
    (Easy.CbXferinfo abortedHandle (CallOutcome.ok (JSValue.int32 0))).invokedHost = false ∧
    (Easy.CbXferinfo abortedHandle (CallOutcome.ok (JSValue.int32 0))).ret = 1 ∧
    ((1 : Int) ≠ 0) := by
  decide

/-- C1 amended: with the abort latch set, both progress-class trampolines
short-circuit and return 1 (re-signalling abort) without invoking the host
and without touching the handle; and the latch becomes set exactly when a
non-short-circuited invocation whose host call did not raise ends with a
non-zero engine return value (a non-integer host return counts, since it
maps to 1; a raising host call leaves the latch clear). -/
theorem progress_abort_latch_semantics (obj : Handle) (host : CallOutcome) :
    (obj.isCbProgressAlreadyAborted = true →
      Easy.CbProgress obj host =
        { handle := obj, ret := 1, invokedHost := false, rethrown := none } ∧
      Easy.CbXferinfo obj host =
        { handle := obj, ret := 1, invokedHost := false, rethrown := none }) ∧
    ((Easy.CbProgress obj host).handle.isCbProgressAlreadyAborted = true ↔
      (obj.isCbProgressAlreadyAborted = true ∨
        ((∃ v, host = CallOutcome.ok v) ∧ (Easy.CbProgress obj host).ret ≠ 0))) ∧
    ((Easy.CbXferinfo obj host).handle.isCbProgressAlreadyAborted = true ↔
      (obj.isCbProgressAlreadyAborted = true ∨
        ((∃ v, host = CallOutcome.ok v) ∧ (Easy.CbXferinfo obj host).ret ≠ 0))) := by
  refine ⟨fun hAb => by simp [Easy.CbProgress, Easy.CbXferinfo, hAb], ?_, ?_⟩ <;>
  · cases hAb : obj.isCbProgressAlreadyAborted with
    | true => simp [Easy.CbProgress, Easy.CbXferinfo, hAb]
    | false =>
        cases host with
        | threw e =>
            cases hm : obj.isInsideMultiHandle <;>
              simp [Easy.CbProgress, Easy.CbXferinfo, routeCallbackError, hAb, hm]
        | ok v =>
            cases v with
            | prim p =>
                cases p with
                | int32 n =>
                    by_cases hn : n = 0 <;>
                      simp [Easy.CbProgress, Easy.CbXferinfo, JSValue.isInt32,
                        JSValue.toInt32, hAb, hn]
                | _ =>
                    cases hm : obj.isInsideMultiHandle <;>
                      simp [Easy.CbProgress, Easy.CbXferinfo, routeCallbackError,
                        JSValue.isInt32, hAb, hm]
            | array es =>
                cases hm : obj.isInsideMultiHandle <;>
                  simp [Easy.CbProgress, Easy.CbXferinfo, routeCallbackError,
                    JSValue.isInt32, hAb, hm]
            | object ps =>
                cases hm : obj.isInsideMultiHandle <;>
                  simp [Easy.CbProgress, Easy.CbXferinfo, routeCallbackError,
                    JSValue.isInt32, hAb, hm]

/-- C1 amended witness: the short-circuit evaluated on a latched handle. -/
theorem progress_abort_latch_semantics_witness :
    Easy.CbProgress abortedHandle (CallOutcome.ok (JSValue.int32 0)) =
      { handle := abortedHandle, ret := 1, invokedHost := false, rethrown := none } ∧
    Easy.CbXferinfo abortedHandle (CallOutcome.ok (JSValue.int32 0)) =
      { handle := abortedHandle, ret := 1, invokedHost := false, rethrown := none } :=
  (progress_abort_latch_semantics abortedHandle (CallOutcome.ok (JSValue.int32 0))).1
    (by decide)

/-- C7 counterexample: installing a PROGRESS callback while the engine
rejects the function-pointer option-set call (code 48,
`CURLE_UNKNOWN_OPTION`) leaves the registry entry present with no
engine-side function pointer installed — the two are not kept
consistent, and the non-success status is simply returned. -/
theorem callback_registry_engine_divergence :
    CURLOPT_PROGRESSFUNCTION ∈
      (Easy.setOptProgressFunction freshHandle emptyProgressEngine (JSValue.func 7)
        48).callbacks ∧
    (Easy.setOptProgressFunction freshHandle emptyProgressEngine (JSValue.func 7)
        48).engine.progressFn = false ∧
    (Easy.setOptProgressFunction freshHandle emptyProgressEngine (JSValue.func 7)
        48).retCode = some 48 := by
  decide

/-- C7 amended: the registry is updated unconditionally (entry inserted
before the engine call, removed on null); whenever the engine's
function-pointer option-set call returns success, the registry entry's
presence coincides with the engine-side pointer being installed, and the
engine's status is what the call returns. -/
theorem callback_registry_engine_consistency_on_success (obj : Handle)
    (eng : ProgressEngine) (value : JSValue)
    (h : value.isFunction = true ∨ value.isNull = true) :
    (Easy.setOptProgressFunction obj eng value 0).threw = none ∧
    (Easy.setOptProgressFunction obj eng value 0).retCode = some 0 ∧
    (CURLOPT_PROGRESSFUNCTION ∈ (Easy.setOptProgressFunction obj eng value 0).callbacks ↔
      (Easy.setOptProgressFunction obj eng value 0).engine.progressFn = true) ∧
    (value.isNull = true →
      CURLOPT_PROGRESSFUNCTION ∉ (Easy.setOptProgressFunction obj eng value 0).callbacks ∧
      (Easy.setOptProgressFunction obj eng value 0).engine =
        { progressFn := false, progressData := false }) ∧
    (value.isFunction = true →
      CURLOPT_PROGRESSFUNCTION ∈ (Easy.setOptProgressFunction obj eng value 0).callbacks ∧
      (Easy.setOptProgressFunction obj eng value 0).engine =
        { progressFn := true, progressData := true }) := by
  cases h with
  | inl hf =>
      have hn : value.isNull = false := by
        cases value with
        | prim p => cases p <;> simp_all [JSValue.isFunction, JSValue.isNull]
        | array es => simp [JSValue.isNull]
        | object ps => simp [JSValue.isNull]
      by_cases hmem : CURLOPT_PROGRESSFUNCTION ∈ obj.callbacks <;>
        simp [Easy.setOptProgressFunction, engineSetFnSlot, hf, hn, hmem]
  | inr hn =>
      have hf : value.isFunction = false := by
        cases value with
        | prim p => cases p <;> simp_all [JSValue.isFunction, JSValue.isNull]
        | array es => simp [JSValue.isFunction]
        | object ps => simp [JSValue.isFunction]
      simp [Easy.setOptProgressFunction, engineSetFnSlot, hf, hn, List.mem_filter]

/-- C7 amended witness: a successful install and a successful clear on a
fresh handle. -/
theorem callback_registry_engine_consistency_on_success_witness :
    (Easy.setOptProgressFunction freshHandle emptyProgressEngine (JSValue.func 7)
        0).threw = none ∧
    (Easy.setOptProgressFunction freshHandle emptyProgressEngine (JSValue.func 7)
        0).retCode = some 0 ∧
    (CURLOPT_PROGRESSFUNCTION ∈
        (Easy.setOptProgressFunction freshHandle emptyProgressEngine (JSValue.func 7)
          0).callbacks ↔
      (Easy.setOptProgressFunction freshHandle emptyProgressEngine (JSValue.func 7)
          0).engine.progressFn = true) ∧
    (JSValue.isNull (JSValue.func 7) = true →
      CURLOPT_PROGRESSFUNCTION ∉
        (Easy.setOptProgressFunction freshHandle emptyProgressEngine (JSValue.func 7)
          0).callbacks ∧
      (Easy.setOptProgressFunction freshHandle emptyProgressEngine (JSValue.func 7)
          0).engine = { progressFn := false, progressData := false }) ∧
    (JSValue.isFunction (JSValue.func 7) = true →
      CURLOPT_PROGRESSFUNCTION ∈
        (Easy.setOptProgressFunction freshHandle emptyProgressEngine (JSValue.func 7)
          0).callbacks ∧
      (Easy.setOptProgressFunction freshHandle emptyProgressEngine (JSValue.func 7)
          0).engine = { progressFn := true, progressData := true }) :=
  callback_registry_engine_consistency_on_success freshHandle emptyProgressEngine
    (JSValue.func 7) (Or.inl (by decide))

/-- C8: setting one chunk callback to null (with the engine accepting the
clear) removes its registry entry and clears its engine-side function
pointer, but clears the shared `CHUNK_DATA` user-data slot only when the
other chunk callback is not registered; while the other remains registered
the shared slot is left untouched.  Stated for both directions
(clearing BGN while END is set, and clearing END while BGN is set). -/
theorem chunk_shared_data_slot_conditional_clear (obj : Handle) (eng : ChunkEngine) :
    (CURLOPT_CHUNK_BGN_FUNCTION ∉
      (Easy.setOptChunkBgnFunction obj eng JSValue.null 0).callbacks) ∧
    (Easy.setOptChunkBgnFunction obj eng JSValue.null 0).engine.chunkBgnFn = false ∧
    (CURLOPT_CHUNK_END_FUNCTION ∈ obj.callbacks →
      (Easy.setOptChunkBgnFunction obj eng JSValue.null 0).engine.chunkData =
        eng.chunkData) ∧
    (CURLOPT_CHUNK_END_FUNCTION ∉ obj.callbacks →
      (Easy.setOptChunkBgnFunction obj eng JSValue.null 0).engine.chunkData = false) ∧
    (CURLOPT_CHUNK_END_FUNCTION ∉
      (Easy.setOptChunkEndFunction obj eng JSValue.null 0).callbacks) ∧
    (Easy.setOptChunkEndFunction obj eng JSValue.null 0).engine.chunkEndFn = false ∧
    (CURLOPT_CHUNK_BGN_FUNCTION ∈ obj.callbacks →
      (Easy.setOptChunkEndFunction obj eng JSValue.null 0).engine.chunkData =
        eng.chunkData) ∧
    (CURLOPT_CHUNK_BGN_FUNCTION ∉ obj.callbacks →
      (Easy.setOptChunkEndFunction obj eng JSValue.null 0).engine.chunkData = false) := by
  have hnull : JSValue.null.isNull = true := rfl
  have hfun : JSValue.null.isFunction = false := rfl
  refine ⟨?_, ?_, ?_, ?_, ?_, ?_, ?_, ?_⟩
  · simp [Easy.setOptChunkBgnFunction, hnull, hfun, List.mem_filter]
  · by_cases hmem : CURLOPT_CHUNK_END_FUNCTION ∈ obj.callbacks <;>
      simp [Easy.setOptChunkBgnFunction, engineSetFnSlot, hnull, hfun, hmem]
  · intro hmem
    simp [Easy.setOptChunkBgnFunction, engineSetFnSlot, hnull, hfun, hmem]
  · intro hmem
    simp [Easy.setOptChunkBgnFunction, engineSetFnSlot, hnull, hfun, hmem]
  · simp [Easy.setOptChunkEndFunction, hnull, hfun, List.mem_filter]
  · by_cases hmem : CURLOPT_CHUNK_BGN_FUNCTION ∈ obj.callbacks <;>
      simp [Easy.setOptChunkEndFunction, engineSetFnSlot, hnull, hfun, hmem]
  · intro hmem
    simp [Easy.setOptChunkEndFunction, engineSetFnSlot, hnull, hfun, hmem]
  · intro hmem
    simp [Easy.setOptChunkEndFunction, engineSetFnSlot, hnull, hfun, hmem]

/-- C8 witness: clearing CHUNK_BGN while CHUNK_END remains registered keeps
the shared user-data slot installed. -/
theorem chunk_shared_data_slot_conditional_clear_witness :
    CURLOPT_CHUNK_BGN_FUNCTION ∉
      (Easy.setOptChunkBgnFunction chunkHandle chunkEngineBoth JSValue.null 0).callbacks ∧
    (Easy.setOptChunkBgnFunction chunkHandle chunkEngineBoth
        JSValue.null 0).engine.chunkBgnFn = false ∧
    (Easy.setOptChunkBgnFunction chunkHandle chunkEngineBoth
        JSValue.null 0).engine.chunkData = true :=
  ⟨(chunk_shared_data_slot_conditional_clear chunkHandle chunkEngineBoth).1,
   (chunk_shared_data_slot_conditional_clear chunkHandle chunkEngineBoth).2.1,
   (chunk_shared_data_slot_conditional_clear chunkHandle chunkEngineBoth).2.2.1
     (by decide)⟩

/-- Helper: the descriptor-scanning loop succeeds exactly when every
property has a recognised key and a string value. -/
theorem scanPostProps_ok_iff (props : List (String × JSPrim)) (fl : PostFlags) :
    (∃ fl2, scanPostProps props fl = Except.ok fl2) ↔
      props.all (fun kv => (lookupHttpPostProp (asciiToUpper kv.1)).isSome &&
        kv.2.isString) = true := by
  induction props generalizing fl with
  | nil => simp [scanPostProps]
  | cons kv rest ih =>
      obtain ⟨k, v⟩ := kv
      cases hl : lookupHttpPostProp (asciiToUpper k) with
      | none => simp [scanPostProps, hl]
      | some p =>
          cases hs : v.isString with
          | false => simp [scanPostProps, hl, hs]
          | true => simp [scanPostProps, hl, hs, ih]

/-- Helper: on success, the scanning loop's presence flags record exactly
which recognised keys occurred. -/
theorem scanPostProps_ok_flags (props : List (String × JSPrim)) (fl fl2 : PostFlags)
    (h : scanPostProps props fl = Except.ok fl2) :
    fl2.hasName = (fl.hasName ||
      props.any (fun kv =>
        decide (lookupHttpPostProp (asciiToUpper kv.1) = some HttpPostProp.name))) ∧
    fl2.hasFile = (fl.hasFile ||
      props.any (fun kv =>
        decide (lookupHttpPostProp (asciiToUpper kv.1) = some HttpPostProp.file))) ∧
    fl2.hasContent = (fl.hasContent ||
      props.any (fun kv =>
        decide (lookupHttpPostProp (asciiToUpper kv.1) = some HttpPostProp.contents))) := by
  induction props generalizing fl with
  | nil =>
      simp only [scanPostProps, Except.ok.injEq] at h
      subst h
      simp
  | cons kv rest ih =>
      obtain ⟨k, v⟩ := kv
      cases hl : lookupHttpPostProp (asciiToUpper k) with
      | none => simp [scanPostProps, hl] at h
      | some p =>
          cases hs : v.isString with
          | false => simp [scanPostProps, hl, hs] at h
          | true =>
              simp only [scanPostProps, hl, hs, Bool.not_true, Bool.false_eq_true,
                if_false] at h
              obtain ⟨h1, h2, h3⟩ := ih (fl.set p) h
              rw [h1, h2, h3]
              cases p <;> simp [PostFlags.set, List.any_cons, hl]

/-- C6 counterexample: a descriptor carrying `name`, `file` and `contents`
at once — so *not* exactly one of `contents`/`file` — is accepted without
any host-visible error: the `file` key silently takes precedence and a
multipart body is installed on the engine handle. -/
theorem httppost_file_and_contents_accepted :
    (Easy.setOptHttpPost (JSValue.array [bothFileAndContentsRow])
        (fun _ => 0) 0 []).threw = none ∧
    (Easy.setOptHttpPost (JSValue.array [bothFileAndContentsRow])
        (fun _ => 0) 0 []).engineArg =
      some [FormEntry.filePart "f" "/tmp/x" none none] ∧
    (Easy.setOptHttpPost (JSValue.array [bothFileAndContentsRow])
        (fun _ => 0) 0 []).retCode = some 0 := by
  refine ⟨?_, ?_, ?_⟩ <;> decide

/-- Helper: `List.any` distributes over a disjunction of predicates. -/
theorem list_any_or {α : Type} (l : List α) (p q : α → Bool) :
    (l.any fun x => p x || q x) = (l.any p || l.any q) := by
  induction l with
  | nil => rfl
  | cons x xs ih =>
      simp only [List.any_cons, ih]
      cases p x <;> cases q x <;> simp

/-- C6 amended: a multipart field descriptor is accepted exactly when every
key is recognised with a string value, a `name` key is present, and at least
one of `file`/`contents` is present (`file` takes precedence when both are
given); every validation failure throws a descriptive host error before the
engine's option-set call, leaving no body installed and the Retained
Allocation Store untouched. -/
theorem httppost_descriptor_validation :
    (∀ props : List (String × JSPrim),
        (∃ entry, processPostRow (JSItem.object props) = Except.ok entry) ↔
          rowWellFormed props = true) ∧
    (∀ (value : JSValue) (formAdd : FormEntry → Int) (engineRet : Int)
        (toFreePost : List (List FormEntry)),
        (Easy.setOptHttpPost value formAdd engineRet toFreePost).threw.isSome = true →
        (Easy.setOptHttpPost value formAdd engineRet toFreePost).engineArg = none ∧
        (Easy.setOptHttpPost value formAdd engineRet toFreePost).retCode = none ∧
        (Easy.setOptHttpPost value formAdd engineRet toFreePost).toFreePost =
          toFreePost) := by
  constructor
  · intro props
    cases hscan : scanPostProps props {} with
    | error e =>
        have hall : ¬ props.all (fun kv => (lookupHttpPostProp (asciiToUpper kv.1)).isSome &&
            kv.2.isString) = true := by
          intro hall
          obtain ⟨fl2, h2⟩ := (scanPostProps_ok_iff props {}).mpr hall
          rw [hscan] at h2
          exact Except.noConfusion h2
        constructor
        · rintro ⟨entry, hent⟩
          simp [processPostRow, hscan] at hent
        · intro hwf
          simp only [rowWellFormed, Bool.and_eq_true] at hwf
          exact absurd hwf.1.1 hall
    | ok fl =>
        have hall := (scanPostProps_ok_iff props {}).mp ⟨fl, hscan⟩
        obtain ⟨hname, hfile, hcont⟩ := scanPostProps_ok_flags props {} fl hscan
        rw [show ({} : PostFlags).hasName = false from rfl, Bool.false_or] at hname
        rw [show ({} : PostFlags).hasFile = false from rfl, Bool.false_or] at hfile
        rw [show ({} : PostFlags).hasContent = false from rfl, Bool.false_or] at hcont
        cases hN : fl.hasName with
        | false =>
            rw [hN] at hname
            simp [processPostRow, hscan, hN, rowWellFormed, hall, ← hname]
        | true =>
            rw [hN] at hname
            cases hF : fl.hasFile with
            | true =>
                rw [hF] at hfile
                constructor
                · intro _
                  rw [rowWellFormed, list_any_or, hall, ← hname, ← hfile]
                  simp
                · intro _
                  by_cases hCT : fl.hasContentType <;>
                    by_cases hFN : fl.hasNewFileName <;>
                      simp [processPostRow, hscan, hN, hF, hCT, hFN]
            | false =>
                rw [hF] at hfile
                cases hC : fl.hasContent with
                | true =>
                    rw [hC] at hcont
                    constructor
                    · intro _
                      rw [rowWellFormed, list_any_or, hall, ← hname, ← hcont]
                      simp
                    · intro _
                      simp [processPostRow, hscan, hN, hF, hC]
                | false =>
                    rw [hC] at hcont
                    constructor
                    · rintro ⟨entry, hent⟩
                      simp [processPostRow, hscan, hN, hF, hC] at hent
                    · intro hwf
                      rw [rowWellFormed, list_any_or, hall, ← hname, ← hfile,
                        ← hcont] at hwf
                      simp at hwf
  · intro value formAdd engineRet toFreePost h
    cases value with
    | prim p => simp [Easy.setOptHttpPost, JSValue.isArray]
    | object ps => simp [Easy.setOptHttpPost, JSValue.isArray]
    | array rows =>
        cases hb : buildPostRows formAdd rows [] with
        | error e => simp [Easy.setOptHttpPost, JSValue.isArray, hb]
        | ok entries => simp [Easy.setOptHttpPost, JSValue.isArray, hb] at h

/-- C6 amended witness: a descriptor with an unrecognised key fails before
any engine call, leaving no body installed. -/
theorem httppost_descriptor_validation_witness :
    (Easy.setOptHttpPost (JSValue.array [JSItem.object [("bogus", JSPrim.str "x")]])
        (fun _ => 0) 0 []).engineArg = none ∧
    (Easy.setOptHttpPost (JSValue.array [JSItem.object [("bogus", JSPrim.str "x")]])
        (fun _ => 0) 0 []).retCode = none ∧
    (Easy.setOptHttpPost (JSValue.array [JSItem.object [("bogus", JSPrim.str "x")]])
        (fun _ => 0) 0 []).toFreePost = [] :=
  httppost_descriptor_validation.2 (JSValue.array [JSItem.object [("bogus", JSPrim.str "x")]])
    (fun _ => 0) 0 [] (by decide)

/-- Helper: unfolding the decimal rendering at a non-zero argument. -/
theorem decimalReprAux_eq_of_ne (n : Nat) (h : n ≠ 0) :
    decimalReprAux n = decimalReprAux (n / 10) ++ [Char.ofNat (48 + n % 10)] := by
  rw [decimalReprAux]
  simp [h]

/-- Helper: the decimal rendering of 0 under the auxiliary function. -/
theorem decimalReprAux_zero : decimalReprAux 0 = [] := by
  rw [decimalReprAux]
  simp

/-- Helper: every character the decimal rendering produces is a digit. -/
theorem decimalReprAux_digits (n : Nat) : ∀ c ∈ decimalReprAux n, c.isDigit = true := by
  induction n using Nat.strong_induction_on with
  | _ n ih =>
      by_cases h : n = 0
      · subst h
        rw [decimalReprAux_zero]
        intro c hc
        cases hc
      · rw [decimalReprAux_eq_of_ne n h]
        intro c hc
        rcases List.mem_append.mp hc with h1 | h2
        · exact ih (n / 10) (Nat.div_lt_self (Nat.pos_of_ne_zero h) (by decide)) c h1
        · have hc2 : c = Char.ofNat (48 + n % 10) := by simpa using h2
          subst hc2
          have hm : n % 10 < 10 := Nat.mod_lt _ (by decide)
          set m := n % 10 with hmdef
          interval_cases m <;> decide

/-- Helper: the digit fold inverts the decimal rendering. -/
theorem foldl_decimalReprAux (n : Nat) :
    ∀ a : Nat,
      List.foldl (fun a c => a * 10 + (c.toNat - 48)) a (decimalReprAux n) =
        a * 10 ^ (decimalReprAux n).length + n := by
  induction n using Nat.strong_induction_on with
  | _ n ih =>
      intro a
      by_cases h : n = 0
      · subst h
        rw [decimalReprAux_zero]
        simp
      · rw [decimalReprAux_eq_of_ne n h, List.foldl_append]
        rw [ih (n / 10) (Nat.div_lt_self (Nat.pos_of_ne_zero h) (by decide)) a]
        have hchar : (Char.ofNat (48 + n % 10)).toNat = 48 + n % 10 := by
          have hm : n % 10 < 10 := Nat.mod_lt _ (by decide)
          set m := n % 10 with hmdef
          interval_cases m <;> decide
        simp only [List.foldl_cons, List.foldl_nil, List.length_append,
          List.length_cons, List.length_nil, hchar, Nat.add_sub_cancel_left,
          Nat.zero_add]
        have hdm : 10 * (n / 10) + n % 10 = n := Nat.div_add_mod n 10
        have hpow : (10 : Nat) ^ ((decimalReprAux (n / 10)).length + 1) =
            10 ^ (decimalReprAux (n / 10)).length * 10 := pow_succ 10 _
        rw [hpow]
        calc (a * 10 ^ (decimalReprAux (n / 10)).length + n / 10) * 10 + n % 10
            = a * (10 ^ (decimalReprAux (n / 10)).length * 10) +
                (10 * (n / 10) + n % 10) := by ring
          _ = a * (10 ^ (decimalReprAux (n / 10)).length * 10) + n := by rw [hdm]

/-- Helper: the base-10 value of the decimal rendering is the number itself. -/
theorem digitsToNat_decimalReprAux (n : Nat) : digitsToNat (decimalReprAux n) = n := by
  have := foldl_decimalReprAux n 0
  simpa [digitsToNat] using this

/-- Helper: the catch block recovers the original code from the digits of the
V8-reported message of the exception `GetInfoTmpl` throws. -/
theorem getInfoCaughtCode_roundtrip (n : Nat) (h : n ≠ 0) :
    getInfoCaughtCode (v8UncaughtMessage (decimalRepr n)) = n := by
  have hdata : (v8UncaughtMessage (decimalRepr n)).data =
      "Uncaught Error: ".data ++ decimalReprAux n := by
    have hrep : decimalRepr n = String.mk (decimalReprAux n) := by
      simp [decimalRepr, h]
    rw [v8UncaughtMessage, hrep]
    rfl
  have hfilter : extractDigits (v8UncaughtMessage (decimalRepr n)) = decimalReprAux n := by
    rw [extractDigits, hdata, List.filter_append]
    rw [show List.filter Char.isDigit "Uncaught Error: ".data = [] from by decide]
    rw [List.filter_eq_self.mpr (decimalReprAux_digits n)]
    rfl
  have hne : decimalReprAux n ≠ [] := by
    rw [decimalReprAux_eq_of_ne n h]
    simp
  rw [getInfoCaughtCode, hfilter]
  have hlen : 0 < (decimalReprAux n).length := List.length_pos.mpr hne
  simp only [hlen, if_pos]
  exact digitsToNat_decimalReprAux n

/-- C9: `getInfo` is total across internal conversion failures: a caught
internal exception never propagates (`propagated = none` on every path), and
the returned status code is the integer formed from the digits of the
exception's message, falling back to the hardcoded
`CURLE_BAD_FUNCTION_ARGUMENT = 43` when the message has no digit; in
particular, when the engine's info call fails with a non-zero code the
thrown-and-caught code is recovered exactly. -/
theorem getinfo_internal_exception_digit_recovery :
    (∀ msg : String,
        getInfoCaughtCode msg =
          if (extractDigits msg).length > 0 then digitsToNat (extractDigits msg)
          else 43) ∧
    (∀ (engineCode : Nat) (engineStr : Option String), engineCode ≠ 0 →
        Easy.GetInfoString engineCode engineStr =
          { code := engineCode, data := JSValue.undefined, propagated := none }) ∧
    (∀ (engineCode : Nat) (engineStr : Option String),
        (Easy.GetInfoString engineCode engineStr).propagated = none) := by
  refine ⟨?_, ?_, ?_⟩
  · intro msg
    rw [getInfoCaughtCode]
    by_cases h : (extractDigits msg).length > 0 <;> simp [h] <;> rfl
  · intro engineCode engineStr h
    have htmpl : Easy.GetInfoTmplString engineCode engineStr =
        Except.error (decimalRepr engineCode) := by
      simp [Easy.GetInfoTmplString, h]
    rw [Easy.GetInfoString, htmpl]
    simp [getInfoCaughtCode_roundtrip engineCode h]
  · intro engineCode engineStr
    rw [Easy.GetInfoString]
    cases Easy.GetInfoTmplString engineCode engineStr <;> rfl

/-- C9 witness: a failing engine info call with code 22 degrades to the
`{ code := 22, data := undefined }` pair without propagating. -/
theorem getinfo_internal_exception_digit_recovery_witness :
    Easy.GetInfoString 22 none =
      { code := 22, data := JSValue.undefined, propagated := none } ∧
    (Easy.GetInfoString 22 none).propagated = none :=
  ⟨getinfo_internal_exception_digit_recovery.2.1 22 none (by decide),
   getinfo_internal_exception_digit_recovery.2.2 22 none⟩

end NodeLibcurl
